import Mathlib

/-!
Verification of the save-tiles orchestrator of `src/ControlSaveTiles.ts`
(leaflet.offline).

The TypeScript source is shallowly embedded as follows.

Pure parts are Lean functions translated line by line:
  * `deriveZoomlevels` embeds the zoom-level selection and the zoom-floor
    validation at the top of `_saveTiles` (lines 140-152).  The thrown
    `Error` (message: It is not possible to save with zoom below level 5 --
    the source wording uses an apostrophe) is modelled by
    `SaveError.zoomBelowMin`.
  * `buildTileList` embeds the tile-list construction loop of `_saveTiles`
    (lines 154-162): for each zoom level, project the north-west and
    south-east corners, form a leaflet `bounds` (componentwise min/max) and
    append the enumerated tile descriptors.  The map projection and the
    enumerator `getTileUrls` are external collaborators and stay abstract
    (function parameters).
  * `resetStatus` embeds `_resetStatus` (lines 185-193).
  * `setStorageSize` embeds `setStorageSize` (lines 77-88); the asynchronous
    `getStorageLength()` result is passed in as an `Except Unit Nat`.
  * `rmTilesProceed` embeds the `successCallback` of `_rmTiles`
    (lines 225-231) after a successful `truncate()`.

The concurrent save run (the `successCallback` of `_saveTiles`, `_loadTile`
and `_saveTile`, lines 164-222) runs on a single-threaded cooperative
scheduler; every code segment between two suspension points is atomic.  It
is embedded as a labelled small-step transition system `Step` on `RunState`:
  * `initRun` is the state right after `successCallback` ran: the savestart
    event fired and `min(tiles.length, parallel)` worker loops were started,
    each having synchronously shifted one tile off the shared work list and
    begun its download.
  * `Step.downloadOk` is the continuation of a resolved `downloadTile`
    inside `_loadTile`: increment `lengthLoaded`, start the asynchronous
    `saveTile` (the tile joins `pendingSaves`), fire loadtileend and
    possibly loadend; the worker then proceeds to the next `loader()` call.
  * `Step.downloadFail` is a rejected `downloadTile`: the rejection
    propagates out of `_loadTile`, the worker loop dies.
  * `Step.claimTile` / `Step.workerExit` are the `loader()` body: shift the
    first remaining tile and download it, or return when the list is empty.
  * `Step.saveOk` is the `.then` continuation inside `_saveTile`: increment
    `lengthSaved`, fire savetileend, and on reaching `lengthToBeSaved` fire
    saveend and call `setStorageSize()` (which starts a recount only when
    the cached `storagesize` is zero).
  * `Step.saveFail` is the `.catch` of `_saveTile`: the re-thrown error goes
    to an unobserved floating promise, no counter changes.
  * `Step.recountOk` / `Step.recountFail` resolve the `getStorageLength()`
    promise started by `setStorageSize`.
-/

/-- Event names fired on the base layer (`this._baseLayer.fire(...)`). -/
inductive Ev where
  | savestart
  | loadtileend
  | loadend
  | savetileend
  | saveend
  | storagesize
  | tilesremoved
deriving DecidableEq, Repr

/-- Tile descriptor (`TileInfo` from TileManager): url plus grid coords. -/
structure TileInfo where
  url : String
  z : Nat
  x : Nat
  y : Nat
deriving DecidableEq, Repr

/-- The mutable `SaveStatus` record (source lines 31-37).  The source field
`_tilesforSave` is spelled `tilesforSave` here. -/
structure SaveStatus where
  storagesize : Nat
  lengthToBeSaved : Nat
  lengthSaved : Nat
  lengthLoaded : Nat
  tilesforSave : List TileInfo
deriving DecidableEq, Repr

/-- `_resetStatus(tiles)` (source lines 185-193): counters zeroed, work list
replaced, `storagesize` carried over from the previous record. -/
def resetStatus (prev : SaveStatus) (tiles : List TileInfo) : SaveStatus :=
  { lengthLoaded := 0
    lengthToBeSaved := tiles.length
    lengthSaved := 0
    tilesforSave := tiles
    storagesize := prev.storagesize }

/-- Validation failure of `_saveTiles`: the throw at source line 143. -/
inductive SaveError where
  | zoomBelowMin
deriving DecidableEq, Repr

/-- Zoom-level selection of `_saveTiles` (source lines 136-152).  In
saveWhatYouSee mode the current zoom must be at least the floor
(`minZoom = 5`, line 136) and the levels run from the current zoom up to
`options.maxZoom`; otherwise `options.zoomlevels` is used when present,
else the single current zoom. -/
def deriveZoomlevels (saveWhatYouSee : Bool) (currentZoom maxZoom : Nat)
    (optLevels : Option (List Nat)) : Except SaveError (List Nat) :=
  if saveWhatYouSee then
    if currentZoom < 5 then Except.error SaveError.zoomBelowMin
    else Except.ok (List.range' currentZoom (maxZoom + 1 - currentZoom))
  else Except.ok (optLevels.getD [currentZoom])

/-- Projected pixel point (leaflet `Point`). -/
structure Pt where
  x : Int
  y : Int
deriving DecidableEq, Repr

/-- Projected pixel bounds (leaflet `Bounds`). -/
structure Bounds where
  bmin : Pt
  bmax : Pt
deriving DecidableEq, Repr

/-- Leaflet `bounds(a, b)`: the smallest axis-aligned box containing both
points (componentwise min/max). -/
def lbounds (a b : Pt) : Bounds :=
  { bmin := { x := min a.x b.x, y := min a.y b.y }
    bmax := { x := max a.x b.x, y := max a.y b.y } }

/-- Tile-list construction loop of `_saveTiles` (source lines 156-162):
`tiles = tiles.concat(getTileUrls(bounds(project(NW, z), project(SE, z)), z))`
for each `z` in `zoomlevels`, in the order the levels are listed.  `project`
and `tileUrls` abstract `this._map.project` and
`this._baseLayer.getTileUrls`. -/
def buildTileList (project : Pt → Nat → Pt) (nw se : Pt)
    (tileUrls : Bounds → Nat → List TileInfo) (zoomlevels : List Nat) :
    List TileInfo :=
  zoomlevels.foldl
    (fun tiles z => tiles ++ tileUrls (lbounds (project nw z) (project se z)) z)
    []

/-- Modelled from the spec (section 4.1, tile list construction): the same
construction but with the zoom levels visited in ascending level order, as
the spec sentence demands.  Used only to compare against `buildTileList`,
which follows the source. -/
def buildTileListAscending (project : Pt → Nat → Pt) (nw se : Pt)
    (tileUrls : Bounds → Nat → List TileInfo) (zoomlevels : List Nat) :
    List TileInfo :=
  buildTileList project nw se tileUrls (List.insertionSort (· ≤ ·) zoomlevels)

/-- One concurrent worker loop (one chain of `loader()` calls). -/
inductive WorkerState where
  | downloading (t : TileInfo)
  | refill
  | done
  | failed
deriving DecidableEq, Repr

/-- Global state of one save run after the confirmation gate passed. -/
structure RunState where
  status : SaveStatus
  workers : List WorkerState
  pendingSaves : List TileInfo
  claimed : List TileInfo
  trace : List Ev
  recountPending : Bool
  recounts : Nat
deriving DecidableEq, Repr

/-- State produced by `successCallback` (source lines 164-176): savestart
fired, `min(tiles.length, parallel)` loaders started, each loader having
synchronously shifted one tile and begun downloading it.  `prevSize` is the
`storagesize` carried over by `_resetStatus`. -/
def initRun (tiles : List TileInfo) (par : Nat) (prevSize : Nat) : RunState :=
  let p := min tiles.length par
  { status :=
      { storagesize := prevSize
        lengthToBeSaved := tiles.length
        lengthSaved := 0
        lengthLoaded := 0
        tilesforSave := tiles.drop p }
    workers := (tiles.take p).map WorkerState.downloading
    pendingSaves := []
    claimed := tiles.take p
    trace := [Ev.savestart]
    recountPending := false
    recounts := 0 }

/-- Labels naming which asynchronous completion a step embeds. -/
inductive Label where
  | dlOk (t : TileInfo)
  | dlFail (t : TileInfo)
  | claimT (t : TileInfo)
  | exitW
  | savOk (t : TileInfo)
  | savFail (t : TileInfo)
  | cntOk (k : Nat)
  | cntFail
deriving DecidableEq, Repr

/-- Result of the `downloadTile(...).then` continuation in `_loadTile`
(source lines 197-204): `lengthLoaded` incremented, `saveTile` started,
loadtileend fired and loadend fired when the load counter reaches the
total; the worker then awaits its next `loader()` call. -/
def downloadOkResult (s : RunState) (l₁ l₂ : List WorkerState)
    (t : TileInfo) : RunState :=
  { s with
    workers := l₁ ++ WorkerState.refill :: l₂
    pendingSaves := s.pendingSaves ++ [t]
    status := { s.status with lengthLoaded := s.status.lengthLoaded + 1 }
    trace := s.trace ++ [Ev.loadtileend] ++
      (if s.status.lengthLoaded + 1 = s.status.lengthToBeSaved
       then [Ev.loadend] else []) }

/-- Result of a rejected `downloadTile`: the worker loop aborts. -/
def downloadFailResult (s : RunState) (l₁ l₂ : List WorkerState) : RunState :=
  { s with workers := l₁ ++ WorkerState.failed :: l₂ }

/-- Result of a `loader()` call finding a nonempty work list (source lines
167-171): the first remaining tile is shifted and its download starts. -/
def claimResult (s : RunState) (l₁ l₂ : List WorkerState) (t : TileInfo)
    (rest : List TileInfo) : RunState :=
  { s with
    workers := l₁ ++ WorkerState.downloading t :: l₂
    status := { s.status with tilesforSave := rest }
    claimed := s.claimed ++ [t] }

/-- Result of a `loader()` call finding the work list empty (source lines
168-170): the worker loop resolves and terminates. -/
def exitResult (s : RunState) (l₁ l₂ : List WorkerState) : RunState :=
  { s with workers := l₁ ++ WorkerState.done :: l₂ }

/-- Result of the `saveTile(...).then` continuation in `_saveTile` (source
lines 211-217): `lengthSaved` incremented, savetileend fired; when the save
counter reaches the total, saveend fires and `setStorageSize()` runs, which
starts a recount only when the cached `storagesize` is zero (source line
78). -/
def saveOkResult (s : RunState) (p₁ p₂ : List TileInfo) : RunState :=
  { s with
    pendingSaves := p₁ ++ p₂
    status := { s.status with lengthSaved := s.status.lengthSaved + 1 }
    trace := s.trace ++ [Ev.savetileend] ++
      (if s.status.lengthSaved + 1 = s.status.lengthToBeSaved
       then [Ev.saveend] else [])
    recountPending :=
      if s.status.lengthSaved + 1 = s.status.lengthToBeSaved ∧
          s.status.storagesize = 0
      then true else s.recountPending
    recounts :=
      if s.status.lengthSaved + 1 = s.status.lengthToBeSaved ∧
          s.status.storagesize = 0
      then s.recounts + 1 else s.recounts }

/-- Result of the `.catch` in `_saveTile` (source lines 219-221): the
re-thrown error lands in an unobserved promise; no counter changes. -/
def saveFailResult (s : RunState) (p₁ p₂ : List TileInfo) : RunState :=
  { s with pendingSaves := p₁ ++ p₂ }

/-- Result of a resolved `getStorageLength()` inside `setStorageSize`
(source lines 82-86): `storagesize` updated and the storagesize event
fired. -/
def recountOkResult (s : RunState) (k : Nat) : RunState :=
  { s with
    recountPending := false
    status := { s.status with storagesize := k }
    trace := s.trace ++ [Ev.storagesize] }

/-- Result of a rejected `getStorageLength()` (source line 87): the catch
resolves with 0; no status change, no event. -/
def recountFailResult (s : RunState) : RunState :=
  { s with recountPending := false }

/-- Small-step transition relation of a save run: each constructor is one
atomic segment of the single-threaded cooperative schedule. -/
inductive Step : RunState → Label → RunState → Prop where
  | downloadOk (s : RunState) (l₁ l₂ : List WorkerState) (t : TileInfo)
      (hw : s.workers = l₁ ++ WorkerState.downloading t :: l₂) :
      Step s (Label.dlOk t) (downloadOkResult s l₁ l₂ t)
  | downloadFail (s : RunState) (l₁ l₂ : List WorkerState) (t : TileInfo)
      (hw : s.workers = l₁ ++ WorkerState.downloading t :: l₂) :
      Step s (Label.dlFail t) (downloadFailResult s l₁ l₂)
  | claimTile (s : RunState) (l₁ l₂ : List WorkerState) (t : TileInfo)
      (rest : List TileInfo)
      (hw : s.workers = l₁ ++ WorkerState.refill :: l₂)
      (hq : s.status.tilesforSave = t :: rest) :
      Step s (Label.claimT t) (claimResult s l₁ l₂ t rest)
  | workerExit (s : RunState) (l₁ l₂ : List WorkerState)
      (hw : s.workers = l₁ ++ WorkerState.refill :: l₂)
      (hq : s.status.tilesforSave = []) :
      Step s Label.exitW (exitResult s l₁ l₂)
  | saveOk (s : RunState) (p₁ p₂ : List TileInfo) (t : TileInfo)
      (hp : s.pendingSaves = p₁ ++ t :: p₂) :
      Step s (Label.savOk t) (saveOkResult s p₁ p₂)
  | saveFail (s : RunState) (p₁ p₂ : List TileInfo) (t : TileInfo)
      (hp : s.pendingSaves = p₁ ++ t :: p₂) :
      Step s (Label.savFail t) (saveFailResult s p₁ p₂)
  | recountOk (s : RunState) (k : Nat) (hr : s.recountPending = true) :
      Step s (Label.cntOk k) (recountOkResult s k)
  | recountFail (s : RunState) (hr : s.recountPending = true) :
      Step s Label.cntFail (recountFailResult s)

/-- Reflexive-transitive closure of `Step`, labels forgotten. -/
inductive Reachable (s : RunState) : RunState → Prop where
  | refl : Reachable s s
  | step {s₁ s₂ : RunState} {lb : Label} (h₁ : Reachable s s₁)
      (h₂ : Step s₁ lb s₂) : Reachable s s₂

/-- True on workers that still have work in flight. -/
def WorkerState.busy : WorkerState → Bool
  | WorkerState.downloading _ => true
  | WorkerState.refill => true
  | WorkerState.done => false
  | WorkerState.failed => false

/-- Number of workers currently awaiting a download. -/
def countD (ws : List WorkerState) : Nat :=
  ws.countP fun w =>
    match w with
    | WorkerState.downloading _ => true
    | _ => false

/-- Number of worker loops that have terminated normally. -/
def countDone (ws : List WorkerState) : Nat :=
  ws.countP fun w =>
    match w with
    | WorkerState.done => true
    | _ => false

/-- Number of saveend events in a trace. -/
def countSaveEnd (tr : List Ev) : Nat :=
  tr.countP fun e =>
    match e with
    | Ev.saveend => true
    | _ => false

/-- Number of storagesize events in a trace. -/
def countSizeEv (tr : List Ev) : Nat :=
  tr.countP fun e =>
    match e with
    | Ev.storagesize => true
    | _ => false

/-- A run state in which no asynchronous completion is outstanding: every
worker loop has ended, no persistence is in flight and no recount is in
flight.  No `Step` applies to such a state. -/
def isTerminal (s : RunState) : Bool :=
  (s.workers.all fun w => !w.busy) && s.pendingSaves.isEmpty &&
    !s.recountPending

/-- Inductive invariant of a save run started as
`initRun tiles par prevSize`. -/
def RunInv (tiles : List TileInfo) (prevSize : Nat) (s : RunState) : Prop :=
  s.status.lengthToBeSaved = tiles.length ∧
  s.claimed ++ s.status.tilesforSave = tiles ∧
  s.status.lengthLoaded + countD s.workers + s.status.tilesforSave.length ≤
    tiles.length ∧
  s.status.lengthSaved + s.pendingSaves.length ≤ s.status.lengthLoaded ∧
  countSaveEnd s.trace =
    (if 0 < tiles.length ∧ s.status.lengthSaved = tiles.length
     then 1 else 0) ∧
  s.recounts =
    (if prevSize = 0 ∧ 0 < tiles.length ∧ s.status.lengthSaved = tiles.length
     then 1 else 0) ∧
  (s.recounts = 0 →
    s.status.storagesize = prevSize ∧ s.recountPending = false) ∧
  countSizeEv s.trace + (if s.recountPending = true then 1 else 0) ≤
    s.recounts

/-- Option record of the control (source lines 19-29 and defaults 60-74),
restricted to the fields the orchestrator core reads.  `confirmConfigured`
models whether `options.confirm` is non-null. -/
structure SaveOpts where
  maxZoom : Nat
  saveWhatYouSee : Bool
  parallel : Nat
  zoomlevels : Option (List Nat)
  confirmConfigured : Bool
deriving Repr

/-- Outcome of one `_saveTiles()` invocation. -/
inductive SaveOutcome where
  | validationError (e : SaveError)
  | blocked (st : SaveStatus)
  | started (s : RunState)
deriving Repr

/-- Number of downloads that have been started under an outcome: an
aborted or gated invocation started none; a started run has begun one
download per claimed tile. -/
def outcomeDownloads : SaveOutcome → Nat
  | SaveOutcome.validationError _ => 0
  | SaveOutcome.blocked _ => 0
  | SaveOutcome.started s => s.claimed.length

/-- Full `_saveTiles()` front end (source lines 133-183): derive the zoom
levels (validating the zoom floor), build the tile list, reset the status,
then pass the confirmation gate.  `hookInvokes` records whether a
configured `options.confirm` hook ever invokes its `successCallback`; when
no hook is configured the callback runs immediately (source lines
178-182). -/
def saveTilesEntry (opts : SaveOpts) (currentZoom : Nat) (nw se : Pt)
    (project : Pt → Nat → Pt) (tileUrls : Bounds → Nat → List TileInfo)
    (prev : SaveStatus) (hookInvokes : Bool) : SaveOutcome :=
  match deriveZoomlevels opts.saveWhatYouSee currentZoom opts.maxZoom
      opts.zoomlevels with
  | Except.error e => SaveOutcome.validationError e
  | Except.ok zls =>
    let tiles := buildTileList project nw se tileUrls zls
    if opts.confirmConfigured && !hookInvokes then
      SaveOutcome.blocked (resetStatus prev tiles)
    else
      SaveOutcome.started (initRun tiles opts.parallel prev.storagesize)

/-- Result of one `setStorageSize()` call (source lines 77-88): the value
the returned promise resolves with, the status afterwards, the events
fired, and whether `getStorageLength()` was called at all. -/
structure SizeResult where
  resolved : Nat
  status : SaveStatus
  events : List Ev
  recounted : Bool
deriving DecidableEq, Repr

/-- `setStorageSize()` (source lines 77-88): a truthy (nonzero) cached
`storagesize` short-circuits to the cached value; otherwise
`getStorageLength()` runs, and on success the count is stored and the
storagesize event fires, while on failure the catch resolves with 0. -/
def setStorageSize (st : SaveStatus) (countResult : Except Unit Nat) :
    SizeResult :=
  if st.storagesize ≠ 0 then
    { resolved := st.storagesize, status := st, events := [],
      recounted := false }
  else
    match countResult with
    | Except.ok k =>
        { resolved := k
          status := { st with storagesize := k }
          events := [Ev.storagesize]
          recounted := true }
    | Except.error _ =>
        { resolved := 0, status := st, events := [], recounted := true }

/-- Result of the removal `successCallback` (source lines 225-231). -/
structure RmResult where
  cleared : Bool
  status : SaveStatus
  events : List Ev
deriving DecidableEq, Repr

/-- The `successCallback` of `_rmTiles` (source lines 225-231) after a
successful `truncate()`: the store is cleared, `storagesize` set to 0, and
tilesremoved then storagesize fired; no other status field is touched. -/
def rmTilesProceed (st : SaveStatus) : RmResult :=
  { cleared := true
    status := { st with storagesize := 0 }
    events := [Ev.tilesremoved, Ev.storagesize] }

/-- Concrete tile used by witnesses and counterexamples. -/
def demoTile : TileInfo := { url := "a", z := 1, x := 2, y := 3 }

/-- Second concrete tile. -/
def demoTile2 : TileInfo := { url := "b", z := 1, x := 2, y := 4 }

/-- Concrete two-tile work list. -/
def demoTiles : List TileInfo := [demoTile, demoTile2]

/-- Concrete one-tile run with a nonzero carried-over storage size. -/
def cexS0 : RunState := initRun [demoTile] 1 5

/-- After the download of the single tile resolved. -/
def cexS1 : RunState := downloadOkResult cexS0 [] [] demoTile

/-- After the persistence of the single tile resolved: saveend has fired
while the cached storage size 5 suppressed the recount. -/
def cexS2 : RunState := saveOkResult cexS1 [] []

/-- After the worker observed the empty list and terminated. -/
def cexS3 : RunState := exitResult cexS2 [] []

/-- Concrete projection used by the tile-list counterexample. -/
def cexProject : Pt → Nat → Pt := fun p _ => p

/-- Concrete enumerator used by the tile-list counterexample: one tile per
zoom level, tagged with the level. -/
def cexEnum : Bounds → Nat → List TileInfo :=
  fun _ z => [{ url := "t", z := z, x := 0, y := 0 }]

/-- Concrete option record: saveWhatYouSee mode, no confirmation hook. -/
def demoOptsWys : SaveOpts :=
  { maxZoom := 7, saveWhatYouSee := true, parallel := 2,
    zoomlevels := none, confirmConfigured := false }

/-- Concrete option record: explicit zoom list and a confirmation hook. -/
def demoOptsConfirm : SaveOpts :=
  { maxZoom := 19, saveWhatYouSee := false, parallel := 50,
    zoomlevels := some [3, 4], confirmConfigured := true }

/-- Concrete previous status with a nonzero cached storage size. -/
def demoPrev : SaveStatus :=
  { storagesize := 5, lengthToBeSaved := 9, lengthSaved := 9,
    lengthLoaded := 9, tilesforSave := [] }

/-- Concrete previous status with a zero cached storage size. -/
def demoPrevZero : SaveStatus :=
  { storagesize := 0, lengthToBeSaved := 0, lengthSaved := 0,
    lengthLoaded := 0, tilesforSave := [] }

/-- Concrete tile list built for zoom levels 3 and 4. -/
def demoBuilt : List TileInfo :=
  buildTileList cexProject { x := 0, y := 0 } { x := 1, y := 1 } cexEnum [3, 4]

/-! Helper lemmas about the counting functions. -/

theorem countP_split (p : WorkerState → Bool) (l₁ l₂ : List WorkerState)
    (a : WorkerState) :
    List.countP p (l₁ ++ a :: l₂) =
      List.countP p l₁ + List.countP p l₂ + (if p a then 1 else 0) := by
  rw [List.countP_append, List.countP_cons]
  omega

theorem countD_split (l₁ l₂ : List WorkerState) (a : WorkerState) :
    countD (l₁ ++ a :: l₂) =
      countD l₁ + countD l₂ +
        (match a with | WorkerState.downloading _ => 1 | _ => 0) := by
  rw [countD, countP_split]
  cases a <;> simp [countD]

theorem countDone_split (l₁ l₂ : List WorkerState) (a : WorkerState) :
    countDone (l₁ ++ a :: l₂) =
      countDone l₁ + countDone l₂ +
        (match a with | WorkerState.done => 1 | _ => 0) := by
  rw [countDone, countP_split]
  cases a <;> simp [countDone]

theorem countD_map_downloading (l : List TileInfo) :
    countD (l.map WorkerState.downloading) = l.length := by
  induction l with
  | nil => rfl
  | cons t ts ih => simp [countD, List.countP_cons, ih]

theorem countSaveEnd_append (a b : List Ev) :
    countSaveEnd (a ++ b) = countSaveEnd a + countSaveEnd b :=
  List.countP_append _ a b

theorem countSizeEv_append (a b : List Ev) :
    countSizeEv (a ++ b) = countSizeEv a + countSizeEv b :=
  List.countP_append _ a b

theorem countSaveEnd_sing (e : Ev) :
    countSaveEnd [e] = if e = Ev.saveend then 1 else 0 := by
  cases e <;> rfl

theorem countSizeEv_sing (e : Ev) :
    countSizeEv [e] = if e = Ev.storagesize then 1 else 0 := by
  cases e <;> rfl

theorem countSaveEnd_nil : countSaveEnd [] = 0 := rfl

theorem countSizeEv_nil : countSizeEv [] = 0 := rfl

/-! The inductive invariant holds initially and is preserved by steps. -/

theorem runInv_init (tiles : List TileInfo) (par prevSize : Nat) :
    RunInv tiles prevSize (initRun tiles par prevSize) := by
  refine ⟨rfl, List.take_append_drop _ tiles, ?_, ?_, ?_, ?_, ?_, ?_⟩
  · show 0 + countD ((tiles.take (min tiles.length par)).map
        WorkerState.downloading) +
      (tiles.drop (min tiles.length par)).length ≤ tiles.length
    rw [countD_map_downloading]
    simp only [List.length_take, List.length_drop]
    omega
  · show 0 + ([] : List TileInfo).length ≤ 0
    decide
  · show countSaveEnd [Ev.savestart] =
      if 0 < tiles.length ∧ 0 = tiles.length then 1 else 0
    rw [if_neg (by omega)]
    rfl
  · show 0 = if prevSize = 0 ∧ 0 < tiles.length ∧ 0 = tiles.length
      then 1 else 0
    rw [if_neg (by omega)]
  · intro _
    exact ⟨rfl, rfl⟩
  · show countSizeEv [Ev.savestart] + (if false = true then 1 else 0) ≤ 0
    decide

theorem countD_downloading (l₁ l₂ : List WorkerState) (t : TileInfo) :
    countD (l₁ ++ WorkerState.downloading t :: l₂) =
      countD l₁ + countD l₂ + 1 := by
  rw [countD_split]

theorem countD_refill (l₁ l₂ : List WorkerState) :
    countD (l₁ ++ WorkerState.refill :: l₂) = countD l₁ + countD l₂ := by
  rw [countD_split]
  rfl

theorem countD_done (l₁ l₂ : List WorkerState) :
    countD (l₁ ++ WorkerState.done :: l₂) = countD l₁ + countD l₂ := by
  rw [countD_split]
  rfl

theorem countD_failed (l₁ l₂ : List WorkerState) :
    countD (l₁ ++ WorkerState.failed :: l₂) = countD l₁ + countD l₂ := by
  rw [countD_split]
  rfl

theorem countDone_d (l₁ l₂ : List WorkerState) (t : TileInfo) :
    countDone (l₁ ++ WorkerState.downloading t :: l₂) =
      countDone l₁ + countDone l₂ := by
  rw [countDone_split]
  rfl

theorem countDone_r (l₁ l₂ : List WorkerState) :
    countDone (l₁ ++ WorkerState.refill :: l₂) = countDone l₁ + countDone l₂ := by
  rw [countDone_split]
  rfl

theorem countDone_x (l₁ l₂ : List WorkerState) :
    countDone (l₁ ++ WorkerState.done :: l₂) =
      countDone l₁ + countDone l₂ + 1 := by
  rw [countDone_split]

theorem countDone_f (l₁ l₂ : List WorkerState) :
    countDone (l₁ ++ WorkerState.failed :: l₂) = countDone l₁ + countDone l₂ := by
  rw [countDone_split]
  rfl

theorem runInv_step (tiles : List TileInfo) (prevSize : Nat)
    (s s' : RunState) (lb : Label)
    (hInv : RunInv tiles prevSize s) (hs : Step s lb s') :
    RunInv tiles prevSize s' := by
  obtain ⟨h1, h2, h3, h4, h5, h6, h7, h8⟩ := hInv
  cases hs with
  | downloadOk l₁ l₂ t hw =>
    simp only [RunInv, downloadOkResult]
    rw [hw, countD_downloading] at h3
    refine ⟨h1, h2, ?_, ?_, ?_, h6, h7, ?_⟩
    · rw [countD_refill]
      omega
    · rw [List.length_append]
      simp only [List.length_cons, List.length_nil]
      omega
    · rw [countSaveEnd_append, countSaveEnd_append, apply_ite countSaveEnd]
      simpa [countSaveEnd_sing, countSaveEnd_nil] using h5
    · rw [countSizeEv_append, countSizeEv_append, apply_ite countSizeEv]
      simpa [countSizeEv_sing, countSizeEv_nil] using h8
  | downloadFail l₁ l₂ t hw =>
    simp only [RunInv, downloadFailResult]
    rw [hw, countD_downloading] at h3
    refine ⟨h1, h2, ?_, h4, h5, h6, h7, h8⟩
    rw [countD_failed]
    omega
  | claimTile l₁ l₂ t rest hw hq =>
    simp only [RunInv, claimResult]
    rw [hw, countD_refill] at h3
    rw [hq] at h2 h3
    simp only [List.length_cons] at h3
    refine ⟨h1, ?_, ?_, h4, h5, h6, h7, h8⟩
    · rw [List.append_assoc]
      exact h2
    · rw [countD_downloading]
      omega
  | workerExit l₁ l₂ hw hq =>
    simp only [RunInv, exitResult]
    rw [hw, countD_refill] at h3
    refine ⟨h1, h2, ?_, h4, h5, h6, h7, h8⟩
    rw [countD_done]
    omega
  | saveOk p₁ p₂ t hp =>
    simp only [RunInv, saveOkResult]
    rw [hp] at h4
    simp only [List.length_append, List.length_cons] at h4
    have hlt : s.status.lengthSaved < tiles.length := by omega
    rw [if_neg (by omega)] at h5
    rw [if_neg (by omega)] at h6
    obtain ⟨hsz, hpd⟩ := h7 h6
    have hct : countSizeEv s.trace = 0 := by
      rw [hpd] at h8
      simp only [Bool.false_eq_true, if_false] at h8
      omega
    refine ⟨h1, h2, h3, ?_, ?_, ?_, ?_, ?_⟩
    · simp only [List.length_append]
      omega
    · rw [countSaveEnd_append, countSaveEnd_append, apply_ite countSaveEnd]
      rw [h1]
      rw [h5]
      by_cases hF : s.status.lengthSaved + 1 = tiles.length
      · rw [if_pos hF,
          if_pos (show 0 < tiles.length ∧
            s.status.lengthSaved + 1 = tiles.length from ⟨by omega, hF⟩)]
        decide
      · rw [if_neg hF,
          if_neg (show ¬(0 < tiles.length ∧
            s.status.lengthSaved + 1 = tiles.length) from by omega)]
        decide
    · rw [h1, hsz, h6]
      by_cases hF : s.status.lengthSaved + 1 = tiles.length ∧ prevSize = 0
      · rw [if_pos hF,
          if_pos (show prevSize = 0 ∧ 0 < tiles.length ∧
            s.status.lengthSaved + 1 = tiles.length from ⟨hF.2, by omega, hF.1⟩)]
      · rw [if_neg hF,
          if_neg (show ¬(prevSize = 0 ∧ 0 < tiles.length ∧
            s.status.lengthSaved + 1 = tiles.length) from by tauto)]
    · intro h0
      by_cases htr : s.status.lengthSaved + 1 = s.status.lengthToBeSaved ∧
          s.status.storagesize = 0
      · rw [if_pos htr] at h0
        omega
      · rw [if_neg htr] at h0
        exact ⟨(h7 h0).1, by rw [if_neg htr]; exact (h7 h0).2⟩
    · rw [countSizeEv_append, countSizeEv_append, apply_ite countSizeEv]
      simp only [hpd]
      by_cases htr : s.status.lengthSaved + 1 = s.status.lengthToBeSaved ∧
          s.status.storagesize = 0
      · simp only [if_pos htr, if_pos htr.1]
        simp [countSizeEv_sing, countSizeEv_nil, hct]
      · simp only [if_neg htr]
        simp [countSizeEv_sing, countSizeEv_nil, hct, h6]
  | saveFail p₁ p₂ t hp =>
    simp only [RunInv, saveFailResult]
    rw [hp] at h4
    simp only [List.length_append, List.length_cons] at h4
    refine ⟨h1, h2, h3, ?_, h5, h6, h7, h8⟩
    simp only [List.length_append]
    omega
  | recountOk k hr =>
    simp only [RunInv, recountOkResult]
    rw [hr] at h8
    simp at h8
    refine ⟨h1, h2, h3, h4, ?_, h6, ?_, ?_⟩
    · rw [countSaveEnd_append]
      simpa [countSaveEnd_sing] using h5
    · intro h0
      have hpd := (h7 h0).2
      rw [hpd] at hr
      exact absurd hr (by decide)
    · rw [countSizeEv_append, countSizeEv_sing]
      simp
      omega
  | recountFail hr =>
    simp only [RunInv, recountFailResult]
    rw [hr] at h8
    simp at h8
    refine ⟨h1, h2, h3, h4, h5, h6, ?_, ?_⟩
    · intro h0
      exact ⟨(h7 h0).1, by trivial⟩
    · simp
      omega

theorem runInv_reachable (tiles : List TileInfo) (par prevSize : Nat)
    (s : RunState) (h : Reachable (initRun tiles par prevSize) s) :
    RunInv tiles prevSize s := by
  induction h with
  | refl => exact runInv_init tiles par prevSize
  | step h₁ h₂ ih => exact runInv_step tiles prevSize _ _ _ ih h₂

theorem terminal_no_step (s : RunState) (lb : Label) (s' : RunState)
    (ht : isTerminal s = true) : ¬ Step s lb s' := by
  intro hstep
  simp only [isTerminal, Bool.and_eq_true, List.all_eq_true] at ht
  obtain ⟨⟨hall, hpe⟩, hpr⟩ := ht
  cases hstep with
  | downloadOk l₁ l₂ t hw =>
    have hm := hall (WorkerState.downloading t) (by rw [hw]; simp)
    simp [WorkerState.busy] at hm
  | downloadFail l₁ l₂ t hw =>
    have hm := hall (WorkerState.downloading t) (by rw [hw]; simp)
    simp [WorkerState.busy] at hm
  | claimTile l₁ l₂ t rest hw hq =>
    have hm := hall WorkerState.refill (by rw [hw]; simp)
    simp [WorkerState.busy] at hm
  | workerExit l₁ l₂ hw hq =>
    have hm := hall WorkerState.refill (by rw [hw]; simp)
    simp [WorkerState.busy] at hm
  | saveOk p₁ p₂ t hp =>
    rw [hp] at hpe
    simp at hpe
  | saveFail p₁ p₂ t hp =>
    rw [hp] at hpe
    simp at hpe
  | recountOk k hr =>
    rw [hr] at hpr
    exact absurd hpr (by decide)
  | recountFail hr =>
    rw [hr] at hpr
    exact absurd hpr (by decide)

/-- The first concrete step of the one-tile demonstration run: the download
of `demoTile` resolves. -/
theorem step_cex01 : Step cexS0 (Label.dlOk demoTile) cexS1 :=
  Step.downloadOk cexS0 [] [] demoTile rfl

/-- The second concrete step: the persistence of `demoTile` resolves. -/
theorem step_cex12 : Step cexS1 (Label.savOk demoTile) cexS2 :=
  Step.saveOk cexS1 [] [] demoTile rfl

/-- The third concrete step: the worker observes the empty work list and
terminates. -/
theorem step_cex23 : Step cexS2 Label.exitW cexS3 :=
  Step.workerExit cexS2 [] [] rfl rfl

/-- The demonstration run is a genuine (reachable) execution. -/
theorem reach_cex3 : Reachable cexS0 cexS3 :=
  Reachable.step (Reachable.step (Reachable.step Reachable.refl step_cex01)
    step_cex12) step_cex23

/-- C1: in every save run, at every reachable instant,
`lengthSaved ≤ lengthLoaded ≤ lengthToBeSaved`; `lengthToBeSaved` is fixed
by the reset and never changed by a step; `lengthLoaded` changes only at a
successful download completion, and then by exactly one; `lengthSaved`
changes only at a successful persistence completion of a tile that is in
`pendingSaves` (that is, whose download already succeeded), and then by
exactly one; and a step adds a tile to `pendingSaves` only when that very
tile's download succeeds in that step. -/
theorem counters_monotone_c1 (tiles : List TileInfo) (par prevSize : Nat)
    (s : RunState) (hr : Reachable (initRun tiles par prevSize) s)
    (s₁ : RunState) (lb₁ : Label) (s₂ : RunState) (h₁ : Step s₁ lb₁ s₂)
    (hL : s₂.status.lengthLoaded ≠ s₁.status.lengthLoaded)
    (s₃ : RunState) (lb₂ : Label) (s₄ : RunState) (h₂ : Step s₃ lb₂ s₄)
    (hS : s₄.status.lengthSaved ≠ s₃.status.lengthSaved)
    (s₅ : RunState) (lb₃ : Label) (s₆ : RunState) (h₃ : Step s₅ lb₃ s₆)
    (t₅ : TileInfo) (hm5 : t₅ ∈ s₆.pendingSaves) :
    (s.status.lengthSaved ≤ s.status.lengthLoaded ∧
      s.status.lengthLoaded ≤ s.status.lengthToBeSaved) ∧
    s₂.status.lengthToBeSaved = s₁.status.lengthToBeSaved ∧
    (∃ t, lb₁ = Label.dlOk t ∧
      s₂.status.lengthLoaded = s₁.status.lengthLoaded + 1) ∧
    (∃ t, lb₂ = Label.savOk t ∧ t ∈ s₃.pendingSaves ∧
      s₄.status.lengthSaved = s₃.status.lengthSaved + 1) ∧
    (t₅ ∈ s₅.pendingSaves ∨ lb₃ = Label.dlOk t₅) := by
  obtain ⟨i1, i2, i3, i4, _⟩ := runInv_reachable tiles par prevSize s hr
  refine ⟨⟨by omega, by omega⟩, ?_, ?_, ?_, ?_⟩
  · cases h₁ <;> rfl
  · cases h₁ with
    | downloadOk l₁ l₂ t hw => exact ⟨t, rfl, rfl⟩
    | downloadFail l₁ l₂ t hw => exact absurd rfl hL
    | claimTile l₁ l₂ t rest hw hq => exact absurd rfl hL
    | workerExit l₁ l₂ hw hq => exact absurd rfl hL
    | saveOk p₁ p₂ t hp => exact absurd rfl hL
    | saveFail p₁ p₂ t hp => exact absurd rfl hL
    | recountOk k hrp => exact absurd rfl hL
    | recountFail hrp => exact absurd rfl hL
  · cases h₂ with
    | saveOk p₁ p₂ t hp => exact ⟨t, rfl, by rw [hp]; simp, rfl⟩
    | downloadOk l₁ l₂ t hw => exact absurd rfl hS
    | downloadFail l₁ l₂ t hw => exact absurd rfl hS
    | claimTile l₁ l₂ t rest hw hq => exact absurd rfl hS
    | workerExit l₁ l₂ hw hq => exact absurd rfl hS
    | saveFail p₁ p₂ t hp => exact absurd rfl hS
    | recountOk k hrp => exact absurd rfl hS
    | recountFail hrp => exact absurd rfl hS
  · cases h₃ with
    | downloadOk l₁ l₂ t hw =>
      simp only [downloadOkResult, List.mem_append, List.mem_singleton] at hm5
      cases hm5 with
      | inl h => exact Or.inl h
      | inr h => exact Or.inr (by rw [h])
    | downloadFail l₁ l₂ t hw => exact Or.inl hm5
    | claimTile l₁ l₂ t rest hw hq => exact Or.inl hm5
    | workerExit l₁ l₂ hw hq => exact Or.inl hm5
    | saveOk p₁ p₂ t hp =>
      refine Or.inl ?_
      rw [hp]
      simp only [saveOkResult, List.mem_append] at hm5 ⊢
      tauto
    | saveFail p₁ p₂ t hp =>
      refine Or.inl ?_
      rw [hp]
      simp only [saveFailResult, List.mem_append] at hm5 ⊢
      tauto
    | recountOk k hrp => exact Or.inl hm5
    | recountFail hrp => exact Or.inl hm5

/-- Witness for C1: the invariant at the start of a two-tile run, together
with the concrete one-tile run in which the download step is the unique
load-counter change, the persistence step the unique save-counter change,
and the downloaded tile the pending save it creates. -/
theorem counters_monotone_c1_witness :
    ((initRun demoTiles 2 0).status.lengthSaved ≤
        (initRun demoTiles 2 0).status.lengthLoaded ∧
      (initRun demoTiles 2 0).status.lengthLoaded ≤
        (initRun demoTiles 2 0).status.lengthToBeSaved) ∧
    cexS1.status.lengthToBeSaved = cexS0.status.lengthToBeSaved ∧
    (∃ t, Label.dlOk demoTile = Label.dlOk t ∧
      cexS1.status.lengthLoaded = cexS0.status.lengthLoaded + 1) ∧
    (∃ t, Label.savOk demoTile = Label.savOk t ∧ t ∈ cexS1.pendingSaves ∧
      cexS2.status.lengthSaved = cexS1.status.lengthSaved + 1) ∧
    (demoTile ∈ cexS0.pendingSaves ∨ Label.dlOk demoTile = Label.dlOk demoTile) :=
  counters_monotone_c1 demoTiles 2 0 (initRun demoTiles 2 0) Reachable.refl
    cexS0 (Label.dlOk demoTile) cexS1 step_cex01 (by decide)
    cexS1 (Label.savOk demoTile) cexS2 step_cex12 (by decide)
    cexS0 (Label.dlOk demoTile) cexS1 step_cex01 demoTile (by decide)

/-- C2: after the confirmation gate passes, exactly
`min(tiles.length, parallel)` worker loops are launched; at every reachable
instant the claimed tiles followed by the remaining work list are exactly
the original list (so each tile position is dequeued at most once) and,
when the tile list has no duplicates, no tile is ever claimed twice; the
only step that terminates a worker loop is the exit step, which requires
the shared work list to be empty and terminates exactly one loop; and a
worker in refill position facing an empty work list can always take that
exit step. -/
theorem worker_pool_c2 (tiles : List TileInfo) (par prevSize : Nat)
    (s : RunState) (hr : Reachable (initRun tiles par prevSize) s)
    (hnd : tiles.Nodup)
    (s₁ : RunState) (lb : Label) (s₂ : RunState) (hstep : Step s₁ lb s₂)
    (hdc : countDone s₂.workers ≠ countDone s₁.workers)
    (s₃ : RunState) (l₁ l₂ : List WorkerState)
    (hw : s₃.workers = l₁ ++ WorkerState.refill :: l₂)
    (hq : s₃.status.tilesforSave = []) :
    (initRun tiles par prevSize).workers.length = min tiles.length par ∧
    s.claimed ++ s.status.tilesforSave = tiles ∧
    s.claimed.Nodup ∧
    (s₁.status.tilesforSave = [] ∧ lb = Label.exitW ∧
      countDone s₂.workers = countDone s₁.workers + 1) ∧
    Step s₃ Label.exitW (exitResult s₃ l₁ l₂) := by
  obtain ⟨_, i2, _⟩ := runInv_reachable tiles par prevSize s hr
  refine ⟨?_, i2, ?_, ?_, Step.workerExit s₃ l₁ l₂ hw hq⟩
  · simp only [initRun, List.length_map, List.length_take]
    omega
  · rw [← i2] at hnd
    exact hnd.of_append_left
  · cases hstep with
    | downloadOk l₁' l₂' t hw' =>
      exact absurd (by simp only [downloadOkResult]; rw [hw', countDone_r, countDone_d]) hdc
    | downloadFail l₁' l₂' t hw' =>
      exact absurd (by simp only [downloadFailResult]; rw [hw', countDone_f, countDone_d]) hdc
    | claimTile l₁' l₂' t rest hw' hq' =>
      exact absurd (by simp only [claimResult]; rw [hw', countDone_d, countDone_r]) hdc
    | workerExit l₁' l₂' hw' hq' =>
      refine ⟨hq', rfl, ?_⟩
      simp only [exitResult]
      rw [hw', countDone_x, countDone_r]
    | saveOk p₁ p₂ t hp => exact absurd rfl hdc
    | saveFail p₁ p₂ t hp => exact absurd rfl hdc
    | recountOk k hrp => exact absurd rfl hdc
    | recountFail hrp => exact absurd rfl hdc

/-- Witness for C2: a concrete two-tile run launches `min 2 2` workers, the
start state claims in order, and the concrete exit step of the one-tile run
changes the done-count exactly when the list is empty. -/
theorem worker_pool_c2_witness :
    (initRun demoTiles 2 0).workers.length = min demoTiles.length 2 ∧
    (initRun demoTiles 2 0).claimed ++
      (initRun demoTiles 2 0).status.tilesforSave = demoTiles ∧
    (initRun demoTiles 2 0).claimed.Nodup ∧
    (cexS2.status.tilesforSave = [] ∧ Label.exitW = Label.exitW ∧
      countDone cexS3.workers = countDone cexS2.workers + 1) ∧
    Step cexS2 Label.exitW (exitResult cexS2 [] []) :=
  worker_pool_c2 demoTiles 2 0 (initRun demoTiles 2 0) Reachable.refl
    (by decide) cexS2 Label.exitW cexS3 step_cex23 (by decide)
    cexS2 [] [] rfl rfl

/-- C3 counterexample: the claim fails on the code in two ways.  First, a
save run with zero tiles (left conjunct) is complete at its start state --
no step applies to it, `isTerminal` -- yet the saveend event has fired zero
times, not exactly once.  Second, a one-tile run whose carried-over
`storagesize` is 5 (right conjunct) runs to completion: saveend fires
exactly once at the completing persistence, but `setStorageSize()` returns
the cached nonzero value, so zero recounts are started and zero
storagesize events fire -- the firing does not trigger a storage
recount. -/
theorem saveend_recount_c3_counterexample :
    (isTerminal (initRun ([] : List TileInfo) 50 0) = true ∧
      countSaveEnd (initRun ([] : List TileInfo) 50 0).trace = 0) ∧
    (Reachable cexS0 cexS3 ∧ isTerminal cexS3 = true ∧
      countSaveEnd cexS3.trace = 1 ∧
      cexS3.status.lengthSaved = cexS3.status.lengthToBeSaved ∧
      cexS3.recounts = 0 ∧ countSizeEv cexS3.trace = 0 ∧
      cexS3.status.storagesize = 5) :=
  ⟨⟨by decide, by decide⟩,
    reach_cex3, by decide, by decide, by decide, by decide, by decide,
    by decide⟩

/-- C3 (amended): for every save run with at least one tile, at every
reachable instant the saveend event has fired exactly once if `lengthSaved`
has reached `lengthToBeSaved` and zero times otherwise (so it fires exactly
once, exactly at the completing persistence); that firing starts exactly
one storage recount if the cached `storagesize` carried into the run was
zero and no recount otherwise; and a storagesize event fires only after a
recount. -/
theorem saveend_recount_c3 (tiles : List TileInfo) (par prevSize : Nat)
    (s : RunState) (hne : tiles ≠ [])
    (hr : Reachable (initRun tiles par prevSize) s) :
    countSaveEnd s.trace =
      (if s.status.lengthSaved = tiles.length then 1 else 0) ∧
    s.recounts =
      (if prevSize = 0 ∧ s.status.lengthSaved = tiles.length
       then 1 else 0) ∧
    countSizeEv s.trace ≤ s.recounts := by
  obtain ⟨_, _, _, _, i5, i6, _, i8⟩ := runInv_reachable tiles par prevSize s hr
  have hpos : 0 < tiles.length := List.length_pos.mpr hne
  refine ⟨?_, ?_, le_trans (Nat.le_add_right _ _) i8⟩
  · rw [i5]
    simp [hpos]
  · rw [i6]
    simp [hpos]

/-- Witness for C3 (amended): the completed one-tile run with carried-over
storage size 5 has one saveend and zero recounts, as the amended claim
predicts. -/
theorem saveend_recount_c3_witness :
    countSaveEnd cexS3.trace =
      (if cexS3.status.lengthSaved = [demoTile].length then 1 else 0) ∧
    cexS3.recounts =
      (if 5 = 0 ∧ cexS3.status.lengthSaved = [demoTile].length
       then 1 else 0) ∧
    countSizeEv cexS3.trace ≤ cexS3.recounts :=
  saveend_recount_c3 [demoTile] 1 5 cexS3 (by decide) reach_cex3

theorem foldl_append_flatten {α : Type} (f : Nat → List α) (zls : List Nat)
    (acc : List α) :
    zls.foldl (fun a z => a ++ f z) acc = acc ++ (zls.map f).flatten := by
  induction zls generalizing acc with
  | nil => simp
  | cons z zs ih => simp [ih, List.append_assoc]

theorem buildTileList_flatten (project : Pt → Nat → Pt) (nw se : Pt)
    (tileUrls : Bounds → Nat → List TileInfo) (zls : List Nat) :
    buildTileList project nw se tileUrls zls =
      (zls.map (fun z =>
        tileUrls (lbounds (project nw z) (project se z)) z)).flatten := by
  have h := foldl_append_flatten
    (fun z => tileUrls (lbounds (project nw z) (project se z)) z) zls []
  simpa [buildTileList] using h

theorem sorted_range' (n s : Nat) :
    List.Sorted (· ≤ ·) (List.range' s n) := by
  induction n generalizing s with
  | zero => simp
  | succ n ih =>
    rw [List.range'_succ, List.sorted_cons]
    constructor
    · intro b hb
      obtain ⟨i, _, rfl⟩ := List.mem_range'.mp hb
      omega
    · exact ih (s + 1)

/-- C4 counterexample: with the explicit zoom-level list `[7, 3]` the code
concatenates the level-7 tiles before the level-3 tiles -- the order the
levels were requested -- and this differs from the ascending-level-order
concatenation the claim describes. -/
theorem tile_list_c4_counterexample :
    buildTileList cexProject { x := 0, y := 0 } { x := 1, y := 1 }
        cexEnum [7, 3] ≠
      buildTileListAscending cexProject { x := 0, y := 0 } { x := 1, y := 1 }
        cexEnum [7, 3] ∧
    buildTileList cexProject { x := 0, y := 0 } { x := 1, y := 1 }
        cexEnum [7, 3] =
      [{ url := "t", z := 7, x := 0, y := 0 },
       { url := "t", z := 3, x := 0, y := 0 }] := by
  constructor
  · decide
  · decide

/-- C4 (amended): the work list is built by, for each requested zoom level,
projecting the north-west and south-east corners at that level, forming the
projected box, and collecting the Enumerator's tiles for that box, with the
per-level lists concatenated in the order the zoom levels are requested
(preserving the Enumerator's internal ordering within each level); in
saveWhatYouSee mode the derived level list is ascending, so there the
concatenation is in ascending level order. -/
theorem tile_list_c4 (project : Pt → Nat → Pt) (nw se : Pt)
    (tileUrls : Bounds → Nat → List TileInfo) (zls : List Nat)
    (cz mz : Nat) (opt : Option (List Nat)) (l : List Nat)
    (hd : deriveZoomlevels true cz mz opt = Except.ok l) :
    buildTileList project nw se tileUrls zls =
      (zls.map (fun z =>
        tileUrls (lbounds (project nw z) (project se z)) z)).flatten ∧
    List.Sorted (· ≤ ·) l := by
  refine ⟨buildTileList_flatten project nw se tileUrls zls, ?_⟩
  by_cases h5 : cz < 5
  · simp [deriveZoomlevels, h5] at hd
  · simp [deriveZoomlevels, h5] at hd
    rw [← hd]
    exact sorted_range' (mz + 1 - cz) cz

/-- Witness for C4 (amended): concrete instantiation at the request order
`[7, 3]` and a saveWhatYouSee derivation from zoom 6 to 8. -/
theorem tile_list_c4_witness :
    buildTileList cexProject { x := 0, y := 0 } { x := 1, y := 1 }
        cexEnum [7, 3] =
      ([7, 3].map (fun z =>
        cexEnum (lbounds (cexProject { x := 0, y := 0 } z)
          (cexProject { x := 1, y := 1 } z)) z)).flatten ∧
    List.Sorted (· ≤ ·) [6, 7, 8] :=
  tile_list_c4 cexProject { x := 0, y := 0 } { x := 1, y := 1 }
    cexEnum [7, 3] 6 8 none [6, 7, 8] rfl

/-- C5: every save invocation replaces the status record wholesale with
`lengthToBeSaved = tiles.length`, zeroed load and save counters and
`tilesForSave = tiles`, while `storageSize` is carried over unchanged from
the previous record. -/
theorem reset_status_c5 (prev : SaveStatus) (tiles : List TileInfo) :
    (resetStatus prev tiles).lengthToBeSaved = tiles.length ∧
    (resetStatus prev tiles).lengthLoaded = 0 ∧
    (resetStatus prev tiles).lengthSaved = 0 ∧
    (resetStatus prev tiles).tilesforSave = tiles ∧
    (resetStatus prev tiles).storagesize = prev.storagesize :=
  ⟨rfl, rfl, rfl, rfl, rfl⟩

/-- C6: a save request in saveWhatYouSee mode with current zoom below the
floor of 5 fails fast with the validation error, before any network
activity: the outcome starts zero downloads. -/
theorem zoom_floor_c6 (opts : SaveOpts) (cz : Nat) (nw se : Pt)
    (project : Pt → Nat → Pt) (tileUrls : Bounds → Nat → List TileInfo)
    (prev : SaveStatus) (hook : Bool)
    (hs : opts.saveWhatYouSee = true) (hz : cz < 5) :
    saveTilesEntry opts cz nw se project tileUrls prev hook =
      SaveOutcome.validationError SaveError.zoomBelowMin ∧
    outcomeDownloads
      (saveTilesEntry opts cz nw se project tileUrls prev hook) = 0 := by
  have he : deriveZoomlevels opts.saveWhatYouSee cz opts.maxZoom
      opts.zoomlevels = Except.error SaveError.zoomBelowMin := by
    rw [hs]
    simp [deriveZoomlevels, hz]
  refine ⟨?_, ?_⟩
  · simp only [saveTilesEntry]
    rw [he]
  · simp only [saveTilesEntry]
    rw [he]
    rfl

/-- Witness for C6: the concrete saveWhatYouSee request at zoom 4. -/
theorem zoom_floor_c6_witness :
    saveTilesEntry demoOptsWys 4 { x := 0, y := 0 } { x := 1, y := 1 }
        cexProject cexEnum demoPrev false =
      SaveOutcome.validationError SaveError.zoomBelowMin ∧
    outcomeDownloads
      (saveTilesEntry demoOptsWys 4 { x := 0, y := 0 } { x := 1, y := 1 }
        cexProject cexEnum demoPrev false) = 0 :=
  zoom_floor_c6 demoOptsWys 4 { x := 0, y := 0 } { x := 1, y := 1 }
    cexProject cexEnum demoPrev false rfl (by decide)

/-- C7: a proceeding removal clears the store, sets `storagesize` to 0,
fires tilesremoved then storagesize, and leaves every other status field
unchanged. -/
theorem rm_tiles_c7 (st : SaveStatus) :
    (rmTilesProceed st).cleared = true ∧
    (rmTilesProceed st).status.storagesize = 0 ∧
    (rmTilesProceed st).events = [Ev.tilesremoved, Ev.storagesize] ∧
    (rmTilesProceed st).status.lengthLoaded = st.lengthLoaded ∧
    (rmTilesProceed st).status.lengthSaved = st.lengthSaved ∧
    (rmTilesProceed st).status.lengthToBeSaved = st.lengthToBeSaved ∧
    (rmTilesProceed st).status.tilesforSave = st.tilesforSave :=
  ⟨rfl, rfl, rfl, rfl, rfl, rfl, rfl⟩

/-- C8: the storage-size refresh returns the cached value without
recounting when the cached count is nonzero; otherwise it recounts,
updates `storagesize` and fires the storagesize event; on a counting
failure it resolves with 0, updating nothing and firing nothing, and never
propagates the error (the embedding is a total function). -/
theorem storage_size_c8 (st : SaveStatus) (res : Except Unit Nat) (k : Nat) :
    (st.storagesize ≠ 0 →
      setStorageSize st res =
        { resolved := st.storagesize, status := st, events := [],
          recounted := false }) ∧
    (st.storagesize = 0 → res = Except.ok k →
      setStorageSize st res =
        { resolved := k, status := { st with storagesize := k },
          events := [Ev.storagesize], recounted := true }) ∧
    (st.storagesize = 0 → res = Except.error () →
      setStorageSize st res =
        { resolved := 0, status := st, events := [],
          recounted := true }) := by
  refine ⟨?_, ?_, ?_⟩
  · intro h
    simp [setStorageSize, h]
  · intro h hk
    subst hk
    simp [setStorageSize, h]
  · intro h hk
    subst hk
    simp [setStorageSize, h]

/-- Witness for C8: cached size 5 short-circuits; cached size 0 recounts
to 3 with the event; cached size 0 with a failing count resolves to 0. -/
theorem storage_size_c8_witness :
    setStorageSize demoPrev (Except.ok 3) =
      { resolved := 5, status := demoPrev, events := [],
        recounted := false } ∧
    setStorageSize demoPrevZero (Except.ok 3) =
      { resolved := 3, status := { demoPrevZero with storagesize := 3 },
        events := [Ev.storagesize], recounted := true } ∧
    setStorageSize demoPrevZero (Except.error ()) =
      { resolved := 0, status := demoPrevZero, events := [],
        recounted := true } :=
  ⟨((storage_size_c8 demoPrev (Except.ok 3) 3).1 (by decide)).trans
      (by decide),
    (storage_size_c8 demoPrevZero (Except.ok 3) 3).2.1 rfl rfl,
    (storage_size_c8 demoPrevZero (Except.error ()) 3).2.2 rfl rfl⟩

/-- C9: with no confirmation hook configured the run proceeds immediately
(the outcome is the started run), and with a hook configured whose proceed
callback is never invoked the outcome stays blocked at the freshly reset
status: zeroed counters, full work list, and zero downloads started; no
step relation is defined on a blocked outcome, so it stays so
indefinitely. -/
theorem confirm_gate_c9 (opts : SaveOpts) (cz : Nat) (nw se : Pt)
    (project : Pt → Nat → Pt) (tileUrls : Bounds → Nat → List TileInfo)
    (prev : SaveStatus) (zls : List Nat)
    (hd : deriveZoomlevels opts.saveWhatYouSee cz opts.maxZoom
      opts.zoomlevels = Except.ok zls) :
    saveTilesEntry opts cz nw se project tileUrls prev false =
      (if opts.confirmConfigured then
        SaveOutcome.blocked
          (resetStatus prev (buildTileList project nw se tileUrls zls))
      else
        SaveOutcome.started
          (initRun (buildTileList project nw se tileUrls zls)
            opts.parallel prev.storagesize)) ∧
    outcomeDownloads (SaveOutcome.blocked
      (resetStatus prev (buildTileList project nw se tileUrls zls))) = 0 ∧
    (resetStatus prev
      (buildTileList project nw se tileUrls zls)).lengthLoaded = 0 ∧
    (resetStatus prev
      (buildTileList project nw se tileUrls zls)).lengthSaved = 0 ∧
    (resetStatus prev
        (buildTileList project nw se tileUrls zls)).tilesforSave =
      buildTileList project nw se tileUrls zls := by
  refine ⟨?_, rfl, rfl, rfl, rfl⟩
  simp only [saveTilesEntry]
  rw [hd]
  cases hcc : opts.confirmConfigured <;> simp

/-- Witness for C9: a configured hook that never calls back leaves the
concrete request blocked at its reset status. -/
theorem confirm_gate_c9_witness :
    saveTilesEntry demoOptsConfirm 4 { x := 0, y := 0 } { x := 1, y := 1 }
        cexProject cexEnum demoPrev false =
      (if demoOptsConfirm.confirmConfigured then
        SaveOutcome.blocked (resetStatus demoPrev demoBuilt)
      else
        SaveOutcome.started (initRun demoBuilt demoOptsConfirm.parallel
          demoPrev.storagesize)) ∧
    outcomeDownloads
      (SaveOutcome.blocked (resetStatus demoPrev demoBuilt)) = 0 ∧
    (resetStatus demoPrev demoBuilt).lengthLoaded = 0 ∧
    (resetStatus demoPrev demoBuilt).lengthSaved = 0 ∧
    (resetStatus demoPrev demoBuilt).tilesforSave = demoBuilt :=
  confirm_gate_c9 demoOptsConfirm 4 { x := 0, y := 0 } { x := 1, y := 1 }
    cexProject cexEnum demoPrev [3, 4] rfl

theorem isOk_ok {e a : Type} (x : a) : (Except.ok x : Except e a).isOk = true :=
  rfl

theorem isOk_error {e a : Type} (x : e) :
    (Except.error x : Except e a).isOk = false :=
  rfl

/-- C10: the zoom-floor validation fails exactly when saveWhatYouSee mode
is active and the current zoom is below 5; when saveWhatYouSee is false no
zoom validation happens at all, and the request proceeds with the explicit
zoom-level list when one is given (even with levels below 5) or with the
current zoom (even below 5) as the single fallback level. -/
theorem zoom_validation_c10 (swys : Bool) (cz mz : Nat)
    (opt : Option (List Nat)) :
    ((deriveZoomlevels swys cz mz opt).isOk = true ↔
      (swys = false ∨ 5 ≤ cz)) ∧
    deriveZoomlevels false cz mz opt = Except.ok (opt.getD [cz]) := by
  constructor
  · cases swys with
    | false =>
      constructor
      · intro _
        exact Or.inl rfl
      · intro _
        rfl
    | true =>
      by_cases h5 : cz < 5
      · rw [show deriveZoomlevels true cz mz opt =
            Except.error SaveError.zoomBelowMin from by
              simp [deriveZoomlevels, h5]]
        rw [isOk_error]
        simp
        omega
      · rw [show deriveZoomlevels true cz mz opt =
            Except.ok (List.range' cz (mz + 1 - cz)) from by
              simp [deriveZoomlevels, h5]]
        rw [isOk_ok]
        simp
        omega
  · simp [deriveZoomlevels]

/-- Witness for C10: an explicit list with levels below 5 is accepted when
saveWhatYouSee is off. -/
theorem zoom_validation_c10_witness :
    ((deriveZoomlevels false 4 19 (some [3, 4])).isOk = true ↔
      (false = false ∨ 5 ≤ 4)) ∧
    deriveZoomlevels false 4 19 (some [3, 4]) =
      Except.ok ((some [3, 4]).getD [4]) :=
  zoom_validation_c10 false 4 19 (some [3, 4])
